import Mathlib

/-!
# Verification of the C172 takeoff-performance interpolation engine

Shallow embedding of `src/lib/perf.ts` (together with the table types of
`src/types.ts`).  JavaScript numbers are modelled as rationals; grid cells
that may be `null` are modelled as `Option ℚ`.  Reads that would throw a
`TypeError` in the source (indexing into a missing grid row) are modelled
in an `Except Unit` layer: `.error ()` is a thrown fault, `.ok` a normal
return.  All definitions are executable.
-/

/-- Grid cells of type `number | null`. -/
abbrev MaybeNum := Option ℚ

/-- A 2-D grid, rows indexed by pressure altitude, columns by temperature. -/
abbrev Grid := List (List MaybeNum)

/-- Entries of `pressure_altitudes_ft`: either the symbolic sea-level marker
`'SL'` or a numeric altitude. -/
inductive PAEntry : Type
  | SL : PAEntry
  | alt : ℚ → PAEntry
deriving DecidableEq

/-- The `speeds_kias` record of a weight row. -/
structure SpeedsKias where
  liftoff : ℚ
  at_50ft : ℚ
deriving DecidableEq, Inhabited

/-- One weight row of the table (`WeightTable` in `src/types.ts`). -/
structure WeightTable where
  weight_lb : ℚ
  speeds_kias : SpeedsKias
  ground_roll_ft : Grid
  to_clear_50ft_ft : Grid
deriving DecidableEq, Inhabited

/-- The `grid` field of the data schema. -/
structure GridData where
  pressure_altitudes_ft : List PAEntry
  temperatures_c : List ℚ
  weights : List WeightTable
deriving DecidableEq

/-- The data schema (`DataSchema` in `src/types.ts`).  The metadata fields
(schema version, aircraft, units, assumptions, adjustments) are never read
by `calculate`, and the hard-coded adjustment constants live in the engine
itself, so only the `grid` field is carried here. -/
structure DataSchema where
  grid : GridData
deriving DecidableEq

/-- Engine input (`CalcInput` in `src/lib/perf.ts`). -/
structure CalcInput where
  pressureAltitudeFt : ℚ
  oatC : ℚ
  weightLb : ℚ
  windKtSigned : ℚ
  dryGrass : Bool
deriving DecidableEq

/-- Engine output (`CalcOutput` in `src/lib/perf.ts`).  The distance and
speed fields are integers produced by `Math.round`, or absent. -/
structure CalcOutput where
  groundRollFt : Option ℤ
  toClear50Ft : Option ℤ
  liftoffKIAS : Option ℤ
  at50ftKIAS : Option ℤ
  notes : List String
deriving DecidableEq

/-- The source's `normalizePA`: the symbolic sea-level marker maps to 0. -/
def normalizePA : PAEntry → ℚ
  | .SL => 0
  | .alt x => x

/-- JavaScript `Math.round`: round half toward positive infinity. -/
def jsRound (q : ℚ) : ℤ := ⌊q + 1/2⌋

/-- JavaScript `a || b` on numbers: `b` when `a` is zero, else `a`. -/
def jsOr (a b : ℚ) : ℚ := if a = 0 then b else a

/-- The `lerp` helper of `src/lib/perf.ts`. -/
def lerp (a b t : ℚ) : ℚ := a + (b - a) * t

/-- Rendering of a number inside a template string.  JavaScript prints a
decimal expansion; the rendering below agrees with it on integral values,
and every number interpolated into a note in this development is integral. -/
def fmtQ (q : ℚ) : String :=
  if q.den = 1 then toString q.num else toString q.num ++ "/" ++ toString q.den

/-- The single note produced on an out-of-range weight (source line 102).
The weight itself goes through `toFixed(0)`, i.e. rounding to an integer. -/
def weightNote (w lo hi : ℚ) : String :=
  "Weight " ++ toString (jsRound w) ++ " lb outside table range " ++
    fmtQ lo ++ "-" ++ fmtQ hi ++ " lb."

/-- The altitude-clamp note (source line 142). -/
def clampNote (paRaw : ℚ) : String :=
  "Pressure altitude " ++ fmtQ paRaw ++
    " ft below POH grid; clamped to sea level (0 ft)."

/-- The extrapolation / null-cell note (source line 156). -/
def extrapNote : String :=
  "Requested conditions require extrapolation beyond POH grid or hit a null cell."

/-- Reading `grid[r][c]` in the source: when row `r` does not exist the read
of entry `c` on it throws a `TypeError` (modelled as `.error ()`); when the
row exists but `c` is out of range the entry reads as `undefined`, which the
`== null` checks of the source treat exactly like an absent cell. -/
def cellRead (g : Grid) (r c : Nat) : Except Unit MaybeNum :=
  match g.get? r with
  | none => .error ()
  | some row => .ok ((row.get? c).getD none)

/-- The scanning `while` loop of `clampIndex`.  The loop body only runs
while `i + 1 < axis.length`, so `axis.length` units of fuel always cover
every iteration the source loop can perform; the fuel never runs out
before the loop guard fails. -/
def clampLoop (x : ℚ) (axis : List ℚ) : Nat → Nat → Nat
  | i, 0 => i
  | i, fuel + 1 =>
    if i + 1 < axis.length ∧ x > axis.getD (i + 1) 0 then
      clampLoop x axis (i + 1) fuel
    else i

/-- The `clampIndex` helper of `src/lib/perf.ts`: `none` when `x` lies outside
`[axis[0], axis[last]]`, otherwise the first index whose successor entry
is not exceeded by `x`. -/
def clampIndex (x : ℚ) (axis : List ℚ) : Option Nat :=
  if x < axis.getD 0 0 ∨ x > axis.getD (axis.length - 1) 0 then none
  else some (clampLoop x axis 0 axis.length)

/-- The `bilinear` helper of `src/lib/perf.ts`.  The four corner reads happen before
the null test, exactly as in the source, so a missing grid row faults even
when an earlier corner already read as null. -/
def bilinear (x y : ℚ) (xs ys : List ℚ) (grid : Grid) : Except Unit MaybeNum :=
  match clampIndex x xs, clampIndex y ys with
  | some i, some j =>
    (match cellRead grid i j, cellRead grid i (j + 1),
           cellRead grid (i + 1) j, cellRead grid (i + 1) (j + 1) with
     | .ok q11, .ok q12, .ok q21, .ok q22 =>
       match q11, q12, q21, q22 with
       | some a, some b, some c, some d =>
         let x0 := xs.getD i 0
         let x1 := xs.getD (i + 1) 0
         let y0 := ys.getD j 0
         let y1 := ys.getD (j + 1) 0
         let tx := (x - x0) / (x1 - x0)
         let ty := (y - y0) / (y1 - y0)
         .ok (some (lerp (lerp a b ty) (lerp c d ty) tx))
       | _, _, _, _ => .ok none
     | _, _, _, _ => .error ())
  | _, _ => .ok none

/-- Effectful traversal used to assemble the blended grid row by row;
a faulting row read aborts the whole computation, as a thrown
`TypeError` does in the source loop. -/
def traverseE {α β : Type} (f : α → Except Unit β) : List α → Except Unit (List β)
  | [] => .ok []
  | a :: as =>
    match f a, traverseE f as with
    | .ok b, .ok bs => .ok (b :: bs)
    | .error e, _ => .error e
    | .ok _, .error e => .error e

/-- One output row of `weightInterp`: cells `0 .. cols-1`, where a pair of
present source cells blends linearly and any absent (or out-of-range,
hence `undefined`) source cell yields an absent cell. -/
def blendRow (t : ℚ) (cols : Nat) (lrow urow : List MaybeNum) : List MaybeNum :=
  (List.range cols).map fun j =>
    match (lrow.get? j).getD none, (urow.get? j).getD none with
    | some a, some b => some (lerp a b t)
    | _, _ => none

/-- The `weightInterp` helper of `src/lib/perf.ts`.  Reading `lower.grid[0].length` throws on
an empty lower grid; inside the loop, row `i` of the lower grid always
exists (`i < rows`), while a missing row `i` of the upper grid throws. -/
def weightInterp (w lw : ℚ) (lg : Grid) (uw : ℚ) (ug : Grid) : Except Unit Grid :=
  match lg.head? with
  | none => .error ()
  | some row0 =>
    let t := (w - lw) / jsOr (uw - lw) 1
    traverseE
      (fun i =>
        match lg.get? i, ug.get? i with
        | some lr, some ur => .ok (blendRow t row0.length lr ur)
        | _, _ => .error ())
      (List.range lg.length)

/-- The bracketing scan of `calculate` (source lines 109-114): the first
adjacent pair of sorted rows whose weights enclose `w`. -/
def findPair (w : ℚ) : List WeightTable → Option (WeightTable × WeightTable)
  | a :: b :: rest =>
    if w ≥ a.weight_lb ∧ w ≤ b.weight_lb then some (a, b)
    else findPair w (b :: rest)
  | _ => none

/-- Bracketing-weight selection: the scan result, or the
`(first, last)` initialisation of the source when no pair matches. -/
def selectBracket (ws : List WeightTable) (w : ℚ) : WeightTable × WeightTable :=
  match findPair w ws with
  | some p => p
  | none => (ws.headD default, ws.getLastD default)

/-- The weight-blend fraction `tw` of `calculate` (source line 117),
including the `|| 1` division-by-zero guard. -/
def twOf (lower upper : WeightTable) (w : ℚ) : ℚ :=
  (w - lower.weight_lb) / jsOr (upper.weight_lb - lower.weight_lb) 1

/-- The headwind multiplier `max(1 - (wind/9)*0.10, 0.5)`. -/
def headwindFactor (wind : ℚ) : ℚ := max (1 - wind / 9 * (10/100)) (1/2)

/-- Wind adjustment of both distances (source lines 161-173). -/
def windAdjust (wind roll over50 : ℚ) : ℚ × ℚ :=
  if wind > 0 then
    (roll * headwindFactor wind, over50 * headwindFactor wind)
  else if wind < 0 then
    let twkt := min |wind| 10
    let factor := 1 + twkt / 10 * (10/100)
    (roll * factor, over50 * factor)
  else (roll, over50)

/-- Dry-grass adjustment (source lines 176-180): 15 percent of the
wind-adjusted ground roll, added to both distances. -/
def grassAdjust (dryGrass : Bool) (roll over50 : ℚ) : ℚ × ℚ :=
  if dryGrass then
    let grassInc := roll * (15/100)
    (roll + grassInc, over50 + grassInc)
  else (roll, over50)

/-- The clamped working altitude (source line 140). -/
def paEff (paRaw paMin : ℚ) : ℚ := if paRaw < paMin then paMin else paRaw

/-- The notes accumulated before the bilinear step: just the clamp note,
when clamping occurred (source lines 141-143). -/
def clampNotes (paRaw paMin : ℚ) : List String :=
  if paRaw < paMin then [clampNote paRaw] else []

/-- The ascending-by-weight order used by the source's
`sort((a, b) => a.weight_lb - b.weight_lb)`. -/
def weightLE (a b : WeightTable) : Prop := a.weight_lb ≤ b.weight_lb

instance : DecidableRel weightLE := fun a b =>
  inferInstanceAs (Decidable (a.weight_lb ≤ b.weight_lb))

instance : IsTotal WeightTable weightLE := ⟨fun a b => le_total a.weight_lb b.weight_lb⟩

instance : IsTrans WeightTable weightLE := ⟨fun _ _ _ h1 h2 => le_trans h1 h2⟩

/-- The `weightsSorted` binding (source line 90): a stable ascending sort of the weight
rows by weight, on a copy of the stored list. -/
def weightsSorted (d : DataSchema) : List WeightTable :=
  List.insertionSort weightLE d.grid.weights

/-- The bound `weightsSorted[0].weight_lb`. -/
def wMinW (ws : List WeightTable) : ℚ := (ws.headD default).weight_lb

/-- The bound `weightsSorted[last].weight_lb`. -/
def wMaxW (ws : List WeightTable) : ℚ := (ws.getLastD default).weight_lb

/-- The normalized pressure-altitude axis (source line 88). -/
def xsOf (d : DataSchema) : List ℚ := d.grid.pressure_altitudes_ft.map normalizePA

/-- Body of `calculate` from source line 91 on: everything after the three
initial bindings, which reads the table only through the normalized
altitude axis `xs`, the temperature axis `ys` and the sorted weight rows
`ws`.  Reading `weightsSorted[0].weight_lb` on an empty row list is the
first potential fault. -/
def calcCore (xs ys : List ℚ) (ws : List WeightTable) (input : CalcInput) :
    Except Unit CalcOutput :=
  if ws = [] then .error () else
  let wMin := wMinW ws
  let wMax := wMaxW ws
  if input.weightLb < wMin ∨ input.weightLb > wMax then
    .ok ⟨none, none, none, none, [weightNote input.weightLb wMin wMax]⟩
  else
    let lower := (selectBracket ws input.weightLb).1
    let upper := (selectBracket ws input.weightLb).2
    let tw := twOf lower upper input.weightLb
    let liftoff := jsRound (lerp lower.speeds_kias.liftoff upper.speeds_kias.liftoff tw)
    let at50 := jsRound (lerp lower.speeds_kias.at_50ft upper.speeds_kias.at_50ft tw)
    match weightInterp input.weightLb lower.weight_lb lower.ground_roll_ft
            upper.weight_lb upper.ground_roll_ft,
          weightInterp input.weightLb lower.weight_lb lower.to_clear_50ft_ft
            upper.weight_lb upper.to_clear_50ft_ft with
    | .ok rollGrid, .ok over50Grid =>
      let pa := paEff input.pressureAltitudeFt (xs.headD 0)
      let notes := clampNotes input.pressureAltitudeFt (xs.headD 0)
      match bilinear pa input.oatC xs ys rollGrid,
            bilinear pa input.oatC xs ys over50Grid with
      | .ok (some roll), .ok (some over50) =>
        let p1 := windAdjust input.windKtSigned roll over50
        let p2 := grassAdjust input.dryGrass p1.1 p1.2
        .ok ⟨some (jsRound p2.1), some (jsRound p2.2), some liftoff, some at50, notes⟩
      | .ok _, .ok _ =>
        .ok ⟨none, none, some liftoff, some at50, extrapNote :: notes⟩
      | _, _ => .error ()
    | _, _ => .error ()

/-- The exported `calculate` of `src/lib/perf.ts`. -/
def calculate (d : DataSchema) (input : CalcInput) : Except Unit CalcOutput :=
  calcCore (xsOf d) d.grid.temperatures_c (weightsSorted d) input

/-!
## Concrete tables used as witnesses and counterexamples

`toyTable` is the toy table of the spec's testable properties: weights
{900, 1000} lb, altitudes {sea level, 2000 ft}, temperatures {0, 20} °C,
temperature-invariant fully populated grids.
-/

unseal Rat.add Rat.mul Rat.sub Rat.inv Rat.ofScientific

deriving instance DecidableEq for Except

/-- The 900 lb row of the toy table. -/
def toyRow900 : WeightTable :=
  { weight_lb := 900
    speeds_kias := { liftoff := 50, at_50ft := 55 }
    ground_roll_ft := [[some 500, some 500], [some 600, some 600]]
    to_clear_50ft_ft := [[some 900, some 900], [some 1050, some 1050]] }

/-- The 1000 lb row of the toy table. -/
def toyRow1000 : WeightTable :=
  { weight_lb := 1000
    speeds_kias := { liftoff := 55, at_50ft := 60 }
    ground_roll_ft := [[some 550, some 550], [some 660, some 660]]
    to_clear_50ft_ft := [[some 1000, some 1000], [some 1200, some 1200]] }

/-- The spec's toy table. -/
def toyTable : DataSchema :=
  { grid :=
    { pressure_altitudes_ft := [PAEntry.SL, PAEntry.alt 2000]
      temperatures_c := [0, 20]
      weights := [toyRow900, toyRow1000] } }

/-- The toy table with the two weight rows stored in the opposite order. -/
def toyTablePermuted : DataSchema :=
  { grid :=
    { pressure_altitudes_ft := [PAEntry.SL, PAEntry.alt 2000]
      temperatures_c := [0, 20]
      weights := [toyRow1000, toyRow900] } }

/-- The 900 lb row with its sea-level / 0 °C ground-roll cell absent. -/
def toyRow900N : WeightTable :=
  { toyRow900 with ground_roll_ft := [[none, some 500], [some 600, some 600]] }

/-- The toy table with one absent ground-roll corner cell. -/
def nullTable : DataSchema :=
  { grid :=
    { pressure_altitudes_ft := [PAEntry.SL, PAEntry.alt 2000]
      temperatures_c := [0, 20]
      weights := [toyRow900N, toyRow1000] } }

/-- A second 900 lb row, with the 1000 lb row's speeds and grids: used to
exercise the degenerate equal-weight bracketing. -/
def toyRow900B : WeightTable :=
  { toyRow1000 with weight_lb := 900 }

/-- A table with two rows of equal weight. -/
def dupTable : DataSchema :=
  { grid :=
    { pressure_altitudes_ft := [PAEntry.SL, PAEntry.alt 2000]
      temperatures_c := [0, 20]
      weights := [toyRow900, toyRow900B] } }

/-- A table whose altitude axis has a single entry.  It satisfies every
data-model invariant of the spec (two distinct weight rows, non-empty
strictly increasing axes, grids of matching dimensions), yet reading the
second grid row inside `bilinear` faults. -/
def singletonAxisTable : DataSchema :=
  { grid :=
    { pressure_altitudes_ft := [PAEntry.SL]
      temperatures_c := [0, 20]
      weights :=
        [{ toyRow900 with
            ground_roll_ft := [[some 500, some 500]]
            to_clear_50ft_ft := [[some 900, some 900]] },
         { toyRow1000 with
            ground_roll_ft := [[some 550, some 550]]
            to_clear_50ft_ft := [[some 1000, some 1000]] }] } }

/-!
## Theorems
-/

/-- C8: on the toy table, the request weight 950 lb, sea level, 0 °C, no
wind, paved surface yields a ground roll of 525 ft (the midpoint of 500
and 550) and an empty notes list. -/
theorem c8_concrete_scenario :
    calculate toyTable
      { pressureAltitudeFt := 0, oatC := 0, weightLb := 950,
        windKtSigned := 0, dryGrass := false } =
      .ok { groundRollFt := some 525, toClear50Ft := some 950,
            liftoffKIAS := some 53, at50ftKIAS := some 58, notes := [] } := by
  decide

/-- C1 counterexample: on the toy table, with weight in range, altitude
-500 ft (clamped, note recorded) and OAT -40 °C (outside the temperature
axis, so the bilinear lookup at the clamped point fails), the two notes
come back with the extrapolation note first and the clamp note second —
not in the order the claim states. -/
theorem c1_counterexample :
    (calculate toyTable
        { pressureAltitudeFt := -500, oatC := -40, weightLb := 950,
          windKtSigned := 0, dryGrass := false }).map CalcOutput.notes =
      .ok [extrapNote, clampNote (-500)] ∧
    (calculate toyTable
        { pressureAltitudeFt := -500, oatC := -40, weightLb := 950,
          windKtSigned := 0, dryGrass := false }).map CalcOutput.notes ≠
      .ok [clampNote (-500), extrapNote] := by decide

/-- C4 counterexample: with weight 1200 lb (out of range) and altitude
-500 ft below the table minimum 0 ft, the result is *exactly* the result
of the same request at altitude 0 — including an identical notes list with
no extra clamp note — because the weight rejection precedes clamping. -/
theorem c4_counterexample :
    calculate toyTable
        { pressureAltitudeFt := -500, oatC := 0, weightLb := 1200,
          windKtSigned := 0, dryGrass := false } =
      calculate toyTable
        { pressureAltitudeFt := 0, oatC := 0, weightLb := 1200,
          windKtSigned := 0, dryGrass := false } ∧
    (calculate toyTable
        { pressureAltitudeFt := -500, oatC := 0, weightLb := 1200,
          windKtSigned := 0, dryGrass := false }).map CalcOutput.notes =
      .ok [weightNote 1200 900 1000] := by decide

/-- C6 counterexample: headwinds 0.09 kt and 0.18 kt both have factors
strictly above the 0.5 floor, yet the returned (rounded) ground roll is
524 ft for both — increasing the headwind does not strictly decrease the
returned distances. -/
theorem c6_counterexample :
    (0:ℚ) < 9/100 ∧ (9:ℚ)/100 < 18/100 ∧
    (1:ℚ)/2 < headwindFactor (18/100) ∧
    (calculate toyTable
        { pressureAltitudeFt := 0, oatC := 0, weightLb := 950,
          windKtSigned := 9/100, dryGrass := false }).map CalcOutput.groundRollFt =
      .ok (some 524) ∧
    (calculate toyTable
        { pressureAltitudeFt := 0, oatC := 0, weightLb := 950,
          windKtSigned := 18/100, dryGrass := false }).map CalcOutput.groundRollFt =
      .ok (some 524) := by decide

/-- C7 counterexample: `singletonAxisTable` satisfies every data-model
invariant the claim lists (two distinct weight rows, non-empty strictly
increasing axes, matching grid dimensions), yet the request at exactly the
one tabulated altitude makes `bilinear` read the non-existent second grid
row, and `calculate` faults instead of returning normally. -/
theorem c7_counterexample :
    2 ≤ singletonAxisTable.grid.weights.length ∧
    (singletonAxisTable.grid.weights.map (fun r => r.weight_lb)).Nodup ∧
    (xsOf singletonAxisTable).Sorted (· < ·) ∧
    singletonAxisTable.grid.temperatures_c.Sorted (· < ·) ∧
    (∀ r ∈ singletonAxisTable.grid.weights,
      r.ground_roll_ft.length = (xsOf singletonAxisTable).length ∧
      r.to_clear_50ft_ft.length = (xsOf singletonAxisTable).length ∧
      (∀ row ∈ r.ground_roll_ft,
        row.length = singletonAxisTable.grid.temperatures_c.length) ∧
      (∀ row ∈ r.to_clear_50ft_ft,
        row.length = singletonAxisTable.grid.temperatures_c.length)) ∧
    calculate singletonAxisTable
      { pressureAltitudeFt := 0, oatC := 0, weightLb := 950,
        windKtSigned := 0, dryGrass := false } = .error () := by decide

/-- The low bound rendered into the out-of-range note is a substring of it. -/
theorem weightNote_infix_lo (w lo hi : ℚ) :
    (fmtQ lo).data <:+: (weightNote w lo hi).data := by
  refine ⟨("Weight " ++ toString (jsRound w) ++ " lb outside table range ").data,
          ("-" ++ fmtQ hi ++ " lb.").data, ?_⟩
  simp [weightNote, String.data_append, List.append_assoc]

/-- The high bound rendered into the out-of-range note is a substring of it. -/
theorem weightNote_infix_hi (w lo hi : ℚ) :
    (fmtQ hi).data <:+: (weightNote w lo hi).data := by
  refine ⟨("Weight " ++ toString (jsRound w) ++ " lb outside table range " ++
           fmtQ lo ++ "-").data, (" lb.").data, ?_⟩
  simp [weightNote, String.data_append, List.append_assoc]

/-- C2: for every table and every request whose weight falls outside the
sorted weight range, `calculate` returns with all four distance/speed
fields absent and exactly one note, and that note contains the rendered
minimum and maximum table weights as substrings. -/
theorem c2_weight_out_of_range (d : DataSchema) (input : CalcInput)
    (hne : weightsSorted d ≠ [])
    (hout : input.weightLb < wMinW (weightsSorted d) ∨
            input.weightLb > wMaxW (weightsSorted d)) :
    calculate d input =
      .ok { groundRollFt := none, toClear50Ft := none, liftoffKIAS := none,
            at50ftKIAS := none,
            notes := [weightNote input.weightLb (wMinW (weightsSorted d))
                        (wMaxW (weightsSorted d))] } ∧
    (fmtQ (wMinW (weightsSorted d))).data <:+:
      (weightNote input.weightLb (wMinW (weightsSorted d)) (wMaxW (weightsSorted d))).data ∧
    (fmtQ (wMaxW (weightsSorted d))).data <:+:
      (weightNote input.weightLb (wMinW (weightsSorted d)) (wMaxW (weightsSorted d))).data := by
  refine ⟨?_, weightNote_infix_lo _ _ _, weightNote_infix_hi _ _ _⟩
  simp only [calculate, calcCore, if_neg hne, if_pos hout]

/-- C2 witness: the toy table at request weight 1200 lb — a single note
that mentions both "900" and "1000". -/
theorem c2_witness :
    weightsSorted toyTable ≠ [] ∧
    ((1200:ℚ) < wMinW (weightsSorted toyTable) ∨
     (1200:ℚ) > wMaxW (weightsSorted toyTable)) ∧
    calculate toyTable
        { pressureAltitudeFt := 0, oatC := 0, weightLb := 1200,
          windKtSigned := 0, dryGrass := false } =
      .ok { groundRollFt := none, toClear50Ft := none, liftoffKIAS := none,
            at50ftKIAS := none, notes := [weightNote 1200 900 1000] } ∧
    "900".data <:+: (weightNote 1200 900 1000).data ∧
    "1000".data <:+: (weightNote 1200 900 1000).data := by
  have h := c2_weight_out_of_range toyTable
    { pressureAltitudeFt := 0, oatC := 0, weightLb := 1200,
      windKtSigned := 0, dryGrass := false } (by decide) (by decide)
  have hlo : wMinW (weightsSorted toyTable) = 900 := by decide
  have hhi : wMaxW (weightsSorted toyTable) = 1000 := by decide
  have hflo : fmtQ (900:ℚ) = "900" := by decide
  have hfhi : fmtQ (1000:ℚ) = "1000" := by decide
  rw [hlo, hhi, hflo, hfhi] at h
  exact ⟨by decide, by decide, h.1, h.2.1, h.2.2⟩

/-- Characterization of the fully successful path of the engine body: in
weight range, both blended grids built, both bilinear lookups returning a
value.  The result carries the wind- and surface-adjusted rounded
distances, the blended rounded speeds, and exactly the clamp notes. -/
theorem calcCore_success (xs ys : List ℚ) (ws : List WeightTable) (input : CalcInput)
    (lower upper : WeightTable) (RG OG : Grid) (roll over50 : ℚ)
    (hne : ws ≠ [])
    (hwin : ¬ (input.weightLb < wMinW ws ∨ input.weightLb > wMaxW ws))
    (hsel : selectBracket ws input.weightLb = (lower, upper))
    (hWI1 : weightInterp input.weightLb lower.weight_lb lower.ground_roll_ft
              upper.weight_lb upper.ground_roll_ft = .ok RG)
    (hWI2 : weightInterp input.weightLb lower.weight_lb lower.to_clear_50ft_ft
              upper.weight_lb upper.to_clear_50ft_ft = .ok OG)
    (hb1 : bilinear (paEff input.pressureAltitudeFt (xs.headD 0)) input.oatC xs ys RG =
             .ok (some roll))
    (hb2 : bilinear (paEff input.pressureAltitudeFt (xs.headD 0)) input.oatC xs ys OG =
             .ok (some over50)) :
    calcCore xs ys ws input =
      .ok { groundRollFt := some (jsRound (grassAdjust input.dryGrass
              (windAdjust input.windKtSigned roll over50).1
              (windAdjust input.windKtSigned roll over50).2).1),
            toClear50Ft := some (jsRound (grassAdjust input.dryGrass
              (windAdjust input.windKtSigned roll over50).1
              (windAdjust input.windKtSigned roll over50).2).2),
            liftoffKIAS := some (jsRound (lerp lower.speeds_kias.liftoff
              upper.speeds_kias.liftoff (twOf lower upper input.weightLb))),
            at50ftKIAS := some (jsRound (lerp lower.speeds_kias.at_50ft
              upper.speeds_kias.at_50ft (twOf lower upper input.weightLb))),
            notes := clampNotes input.pressureAltitudeFt (xs.headD 0) } := by
  simp only [calcCore, if_neg hne, if_neg hwin, hsel, hWI1, hWI2, hb1, hb2]

/-- Characterization of the extrapolation path: in weight range, both
blended grids built, both bilinear lookups returning normally but at
least one of them absent.  Distances are absent, speeds populated, and
the extrapolation note is *prepended* to the accumulated notes. -/
theorem calcCore_extrap (xs ys : List ℚ) (ws : List WeightTable) (input : CalcInput)
    (lower upper : WeightTable) (RG OG : Grid) (rq oq : MaybeNum)
    (hne : ws ≠ [])
    (hwin : ¬ (input.weightLb < wMinW ws ∨ input.weightLb > wMaxW ws))
    (hsel : selectBracket ws input.weightLb = (lower, upper))
    (hWI1 : weightInterp input.weightLb lower.weight_lb lower.ground_roll_ft
              upper.weight_lb upper.ground_roll_ft = .ok RG)
    (hWI2 : weightInterp input.weightLb lower.weight_lb lower.to_clear_50ft_ft
              upper.weight_lb upper.to_clear_50ft_ft = .ok OG)
    (hb1 : bilinear (paEff input.pressureAltitudeFt (xs.headD 0)) input.oatC xs ys RG = .ok rq)
    (hb2 : bilinear (paEff input.pressureAltitudeFt (xs.headD 0)) input.oatC xs ys OG = .ok oq)
    (hfail : rq = none ∨ oq = none) :
    calcCore xs ys ws input =
      .ok { groundRollFt := none, toClear50Ft := none,
            liftoffKIAS := some (jsRound (lerp lower.speeds_kias.liftoff
              upper.speeds_kias.liftoff (twOf lower upper input.weightLb))),
            at50ftKIAS := some (jsRound (lerp lower.speeds_kias.at_50ft
              upper.speeds_kias.at_50ft (twOf lower upper input.weightLb))),
            notes := extrapNote :: clampNotes input.pressureAltitudeFt (xs.headD 0) } := by
  rcases hfail with h | h
  · subst h
    rcases oq with _ | v <;>
      simp only [calcCore, if_neg hne, if_neg hwin, hsel, hWI1, hWI2, hb1, hb2]
  · subst h
    rcases rq with _ | v <;>
      simp only [calcCore, if_neg hne, if_neg hwin, hsel, hWI1, hWI2, hb1, hb2]

/-- C5: whenever both distances are computed, the `dryGrass` result adds
the single increment `0.15 * (wind-adjusted ground roll)` to *both*
distances before rounding: the ground roll becomes 1.15 times its
`dryGrass := false` value, and the clear-50 distance grows by exactly the
same absolute increment, not by its own 15 percent. -/
theorem c5_dry_grass_shared_increment (d : DataSchema) (input : CalcInput)
    (lower upper : WeightTable) (RG OG : Grid) (roll over50 : ℚ)
    (hne : weightsSorted d ≠ [])
    (hwin : ¬ (input.weightLb < wMinW (weightsSorted d) ∨
               input.weightLb > wMaxW (weightsSorted d)))
    (hsel : selectBracket (weightsSorted d) input.weightLb = (lower, upper))
    (hWI1 : weightInterp input.weightLb lower.weight_lb lower.ground_roll_ft
              upper.weight_lb upper.ground_roll_ft = .ok RG)
    (hWI2 : weightInterp input.weightLb lower.weight_lb lower.to_clear_50ft_ft
              upper.weight_lb upper.to_clear_50ft_ft = .ok OG)
    (hb1 : bilinear (paEff input.pressureAltitudeFt ((xsOf d).headD 0)) input.oatC
              (xsOf d) d.grid.temperatures_c RG = .ok (some roll))
    (hb2 : bilinear (paEff input.pressureAltitudeFt ((xsOf d).headD 0)) input.oatC
              (xsOf d) d.grid.temperatures_c OG = .ok (some over50)) :
    calculate d { input with dryGrass := false } =
      .ok { groundRollFt := some (jsRound (windAdjust input.windKtSigned roll over50).1),
            toClear50Ft := some (jsRound (windAdjust input.windKtSigned roll over50).2),
            liftoffKIAS := some (jsRound (lerp lower.speeds_kias.liftoff
              upper.speeds_kias.liftoff (twOf lower upper input.weightLb))),
            at50ftKIAS := some (jsRound (lerp lower.speeds_kias.at_50ft
              upper.speeds_kias.at_50ft (twOf lower upper input.weightLb))),
            notes := clampNotes input.pressureAltitudeFt ((xsOf d).headD 0) } ∧
    calculate d { input with dryGrass := true } =
      .ok { groundRollFt := some (jsRound ((windAdjust input.windKtSigned roll over50).1 +
              (windAdjust input.windKtSigned roll over50).1 * (15/100))),
            toClear50Ft := some (jsRound ((windAdjust input.windKtSigned roll over50).2 +
              (windAdjust input.windKtSigned roll over50).1 * (15/100))),
            liftoffKIAS := some (jsRound (lerp lower.speeds_kias.liftoff
              upper.speeds_kias.liftoff (twOf lower upper input.weightLb))),
            at50ftKIAS := some (jsRound (lerp lower.speeds_kias.at_50ft
              upper.speeds_kias.at_50ft (twOf lower upper input.weightLb))),
            notes := clampNotes input.pressureAltitudeFt ((xsOf d).headD 0) } ∧
    (windAdjust input.windKtSigned roll over50).1 +
        (windAdjust input.windKtSigned roll over50).1 * (15/100) =
      (windAdjust input.windKtSigned roll over50).1 * (115/100) := by
  refine ⟨?_, ?_, by ring⟩
  · have h := calcCore_success (xsOf d) d.grid.temperatures_c (weightsSorted d)
      { input with dryGrass := false } lower upper RG OG roll over50
      hne hwin hsel hWI1 hWI2 hb1 hb2
    simpa [calculate, grassAdjust] using h
  · have h := calcCore_success (xsOf d) d.grid.temperatures_c (weightsSorted d)
      { input with dryGrass := true } lower upper RG OG roll over50
      hne hwin hsel hWI1 hWI2 hb1 hb2
    simpa [calculate, grassAdjust] using h

/-- C5 witness: the toy table at weight 950 lb, no wind — dry grass turns
(525, 950) into (604, 1029): both gain the same 78.75 ft increment. -/
theorem c5_witness :
    selectBracket (weightsSorted toyTable) 950 = (toyRow900, toyRow1000) ∧
    calculate toyTable
        { pressureAltitudeFt := 0, oatC := 0, weightLb := 950,
          windKtSigned := 0, dryGrass := false } =
      .ok { groundRollFt := some 525, toClear50Ft := some 950,
            liftoffKIAS := some 53, at50ftKIAS := some 58, notes := [] } ∧
    calculate toyTable
        { pressureAltitudeFt := 0, oatC := 0, weightLb := 950,
          windKtSigned := 0, dryGrass := true } =
      .ok { groundRollFt := some 604, toClear50Ft := some 1029,
            liftoffKIAS := some 53, at50ftKIAS := some 58, notes := [] } := by
  have h := c5_dry_grass_shared_increment toyTable
    { pressureAltitudeFt := 0, oatC := 0, weightLb := 950,
      windKtSigned := 0, dryGrass := false }
    toyRow900 toyRow1000
    [[some 525, some 525], [some 630, some 630]]
    [[some 950, some 950], [some 1125, some 1125]]
    525 950
    (by decide) (by decide) (by decide) (by decide) (by decide) (by decide) (by decide)
  exact ⟨by decide, h.1.trans (by decide), h.2.1.trans (by decide)⟩

/-- C1 amended: when the weight is in range, the pressure altitude is
below the table minimum (clamp note recorded) and the bilinear lookup at
the clamped point fails, `calculate` returns exactly two notes — with the
*extrapolation note first* and the altitude-clamp note second (the source
prepends the extrapolation note to the accumulated notes). -/
theorem c1_amended_note_order (d : DataSchema) (input : CalcInput)
    (lower upper : WeightTable) (RG OG : Grid) (rq oq : MaybeNum)
    (hne : weightsSorted d ≠ [])
    (hwin : ¬ (input.weightLb < wMinW (weightsSorted d) ∨
               input.weightLb > wMaxW (weightsSorted d)))
    (hsel : selectBracket (weightsSorted d) input.weightLb = (lower, upper))
    (hWI1 : weightInterp input.weightLb lower.weight_lb lower.ground_roll_ft
              upper.weight_lb upper.ground_roll_ft = .ok RG)
    (hWI2 : weightInterp input.weightLb lower.weight_lb lower.to_clear_50ft_ft
              upper.weight_lb upper.to_clear_50ft_ft = .ok OG)
    (hpa : input.pressureAltitudeFt < (xsOf d).headD 0)
    (hb1 : bilinear (paEff input.pressureAltitudeFt ((xsOf d).headD 0)) input.oatC
              (xsOf d) d.grid.temperatures_c RG = .ok rq)
    (hb2 : bilinear (paEff input.pressureAltitudeFt ((xsOf d).headD 0)) input.oatC
              (xsOf d) d.grid.temperatures_c OG = .ok oq)
    (hfail : rq = none ∨ oq = none) :
    calculate d input =
      .ok { groundRollFt := none, toClear50Ft := none,
            liftoffKIAS := some (jsRound (lerp lower.speeds_kias.liftoff
              upper.speeds_kias.liftoff (twOf lower upper input.weightLb))),
            at50ftKIAS := some (jsRound (lerp lower.speeds_kias.at_50ft
              upper.speeds_kias.at_50ft (twOf lower upper input.weightLb))),
            notes := [extrapNote, clampNote input.pressureAltitudeFt] } := by
  have h := calcCore_extrap (xsOf d) d.grid.temperatures_c (weightsSorted d)
    input lower upper RG OG rq oq hne hwin hsel hWI1 hWI2 hb1 hb2 hfail
  simpa only [calculate, clampNotes, if_pos hpa] using h

/-- C1 amended witness: toy table, altitude -500 ft and OAT -40 °C —
notes come back as [extrapolation note, clamp note]. -/
theorem c1_witness :
    ((-500:ℚ) < (xsOf toyTable).headD 0) ∧
    (bilinear (paEff (-500) ((xsOf toyTable).headD 0)) (-40) (xsOf toyTable)
        toyTable.grid.temperatures_c [[some 525, some 525], [some 630, some 630]] =
      .ok none) ∧
    calculate toyTable
        { pressureAltitudeFt := -500, oatC := -40, weightLb := 950,
          windKtSigned := 0, dryGrass := false } =
      .ok { groundRollFt := none, toClear50Ft := none,
            liftoffKIAS := some 53, at50ftKIAS := some 58,
            notes := [extrapNote, clampNote (-500)] } := by
  have h := c1_amended_note_order toyTable
    { pressureAltitudeFt := -500, oatC := -40, weightLb := 950,
      windKtSigned := 0, dryGrass := false }
    toyRow900 toyRow1000
    [[some 525, some 525], [some 630, some 630]]
    [[some 950, some 950], [some 1125, some 1125]]
    none none
    (by decide) (by decide) (by decide) (by decide) (by decide) (by decide)
    (by decide) (by decide) (Or.inl rfl)
  exact ⟨by decide, by decide, h.trans (by decide)⟩

/-- Reading `axis[0]` via `getD` agrees with `headD`. -/
theorem headD_eq_getD_zero (l : List ℚ) : l.headD 0 = l.getD 0 0 := by
  cases l <;> rfl

/-- A successful axis lookup means the target is not below the first
axis entry. -/
theorem clampIndex_some_not_lt {x : ℚ} {axis : List ℚ} {i : Nat}
    (h : clampIndex x axis = some i) : ¬ x < axis.getD 0 0 := by
  intro hlt
  rw [clampIndex, if_pos (Or.inl hlt)] at h
  cases h

/-- If any of the four corner cells read by `bilinear` is absent, the
whole lookup returns absent, regardless of the other three corners. -/
theorem bilinear_corner_none (x y : ℚ) (xs ys : List ℚ) (g : Grid) (i j : Nat)
    (q11 q12 q21 q22 : MaybeNum)
    (hi : clampIndex x xs = some i) (hj : clampIndex y ys = some j)
    (h11 : cellRead g i j = .ok q11) (h12 : cellRead g i (j + 1) = .ok q12)
    (h21 : cellRead g (i + 1) j = .ok q21) (h22 : cellRead g (i + 1) (j + 1) = .ok q22)
    (hone : q11 = none ∨ q12 = none ∨ q21 = none ∨ q22 = none) :
    bilinear x y xs ys g = .ok none := by
  rcases q11 with _ | a <;> rcases q12 with _ | b <;>
    rcases q21 with _ | c <;> rcases q22 with _ | e
  all_goals simp_all [bilinear, hi, hj, h11, h12, h21, h22]

/-- C3: with the request point bracketed by both axes, a single absent
corner cell in either weight-blended grid makes that grid's bilinear
result absent, and `calculate` then returns with both distance fields
absent, both speed fields populated, and the extrapolation note. -/
theorem c3_null_corner_propagation (d : DataSchema) (input : CalcInput)
    (lower upper : WeightTable) (RG OG g : Grid) (i j : Nat)
    (q11 q12 q21 q22 rq oq : MaybeNum)
    (hne : weightsSorted d ≠ [])
    (hwin : ¬ (input.weightLb < wMinW (weightsSorted d) ∨
               input.weightLb > wMaxW (weightsSorted d)))
    (hsel : selectBracket (weightsSorted d) input.weightLb = (lower, upper))
    (hWI1 : weightInterp input.weightLb lower.weight_lb lower.ground_roll_ft
              upper.weight_lb upper.ground_roll_ft = .ok RG)
    (hWI2 : weightInterp input.weightLb lower.weight_lb lower.to_clear_50ft_ft
              upper.weight_lb upper.to_clear_50ft_ft = .ok OG)
    (hi : clampIndex input.pressureAltitudeFt (xsOf d) = some i)
    (hj : clampIndex input.oatC d.grid.temperatures_c = some j)
    (hg : g = RG ∨ g = OG)
    (h11 : cellRead g i j = .ok q11) (h12 : cellRead g i (j + 1) = .ok q12)
    (h21 : cellRead g (i + 1) j = .ok q21) (h22 : cellRead g (i + 1) (j + 1) = .ok q22)
    (hone : q11 = none ∨ q12 = none ∨ q21 = none ∨ q22 = none)
    (hb1 : bilinear input.pressureAltitudeFt input.oatC (xsOf d)
             d.grid.temperatures_c RG = .ok rq)
    (hb2 : bilinear input.pressureAltitudeFt input.oatC (xsOf d)
             d.grid.temperatures_c OG = .ok oq) :
    bilinear input.pressureAltitudeFt input.oatC (xsOf d) d.grid.temperatures_c g =
      .ok none ∧
    calculate d input =
      .ok { groundRollFt := none, toClear50Ft := none,
            liftoffKIAS := some (jsRound (lerp lower.speeds_kias.liftoff
              upper.speeds_kias.liftoff (twOf lower upper input.weightLb))),
            at50ftKIAS := some (jsRound (lerp lower.speeds_kias.at_50ft
              upper.speeds_kias.at_50ft (twOf lower upper input.weightLb))),
            notes := [extrapNote] } := by
  have hnl : ¬ input.pressureAltitudeFt < (xsOf d).headD 0 := by
    rw [headD_eq_getD_zero]; exact clampIndex_some_not_lt hi
  have hpe : paEff input.pressureAltitudeFt ((xsOf d).headD 0) =
      input.pressureAltitudeFt := if_neg hnl
  have hbg : bilinear input.pressureAltitudeFt input.oatC (xsOf d)
      d.grid.temperatures_c g = .ok none :=
    bilinear_corner_none _ _ _ _ _ _ _ _ _ _ _ hi hj h11 h12 h21 h22 hone
  refine ⟨hbg, ?_⟩
  have hfail : rq = none ∨ oq = none := by
    rcases hg with rfl | rfl
    · exact Or.inl (Except.ok.inj (hb1.symm.trans hbg))
    · exact Or.inr (Except.ok.inj (hb2.symm.trans hbg))
  have h := calcCore_extrap (xsOf d) d.grid.temperatures_c (weightsSorted d)
    input lower upper RG OG rq oq hne hwin hsel hWI1 hWI2
    (by rw [hpe]; exact hb1) (by rw [hpe]; exact hb2) hfail
  simpa only [calculate, clampNotes, if_neg hnl] using h

/-- C3 witness: the toy table with its 900 lb sea-level / 0 °C ground-roll
cell removed — the blended corner is absent, distances are absent, speeds
survive, and the extrapolation note is the only note. -/
theorem c3_witness :
    cellRead [[none, some 525], [some 630, some 630]] 0 0 = .ok none ∧
    bilinear 0 0 (xsOf nullTable) nullTable.grid.temperatures_c
      [[none, some 525], [some 630, some 630]] = .ok none ∧
    calculate nullTable
        { pressureAltitudeFt := 0, oatC := 0, weightLb := 950,
          windKtSigned := 0, dryGrass := false } =
      .ok { groundRollFt := none, toClear50Ft := none,
            liftoffKIAS := some 53, at50ftKIAS := some 58,
            notes := [extrapNote] } := by
  have h := c3_null_corner_propagation nullTable
    { pressureAltitudeFt := 0, oatC := 0, weightLb := 950,
      windKtSigned := 0, dryGrass := false }
    toyRow900N toyRow1000
    [[none, some 525], [some 630, some 630]]
    [[some 950, some 950], [some 1125, some 1125]]
    [[none, some 525], [some 630, some 630]]
    0 0 none (some 525) (some 630) (some 630) none (some 950)
    (by decide) (by decide) (by decide) (by decide) (by decide)
    (by decide) (by decide) (Or.inl rfl)
    (by decide) (by decide) (by decide) (by decide) (Or.inl rfl)
    (by decide) (by decide)
  exact ⟨by decide, h.1, h.2.trans (by decide)⟩

/-- The clamp law at the engine-body level: for an in-range weight and an
altitude below the axis minimum, the result equals the result at the
minimum altitude with one clamp note appended to the notes list. -/
theorem calcCore_clamp_law (xs ys : List ℚ) (ws : List WeightTable) (input : CalcInput)
    (hne : ws ≠ [])
    (hwin : ¬ (input.weightLb < wMinW ws ∨ input.weightLb > wMaxW ws))
    (hpa : input.pressureAltitudeFt < xs.headD 0) :
    calcCore xs ys ws input =
      (calcCore xs ys ws { input with pressureAltitudeFt := xs.headD 0 }).map
        (fun out => { out with notes := out.notes ++ [clampNote input.pressureAltitudeFt] }) := by
  simp only [List.headD_eq_head?_getD] at hpa ⊢
  simp only [calcCore, if_neg hne, if_neg hwin, paEff, clampNotes,
    if_pos hpa, if_neg (lt_irrefl (xs.head?.getD 0)), List.headD_eq_head?_getD]
  cases h1 : weightInterp input.weightLb
      ((selectBracket ws input.weightLb).1).weight_lb
      ((selectBracket ws input.weightLb).1).ground_roll_ft
      ((selectBracket ws input.weightLb).2).weight_lb
      ((selectBracket ws input.weightLb).2).ground_roll_ft with
  | error e => simp [Except.map]
  | ok RG =>
    cases h2 : weightInterp input.weightLb
        ((selectBracket ws input.weightLb).1).weight_lb
        ((selectBracket ws input.weightLb).1).to_clear_50ft_ft
        ((selectBracket ws input.weightLb).2).weight_lb
        ((selectBracket ws input.weightLb).2).to_clear_50ft_ft with
    | error e => simp [Except.map]
    | ok OG =>
      cases h3 : bilinear (xs.head?.getD 0) input.oatC xs ys RG with
      | error e => simp [h3, Except.map]
      | ok rq =>
        cases h4 : bilinear (xs.head?.getD 0) input.oatC xs ys OG with
        | error e => cases rq <;> simp [h3, h4, Except.map]
        | ok oq => cases rq <;> cases oq <;> simp [h3, h4, Except.map]

/-- The clamp note always starts with the letter P, whatever altitude is
rendered into it. -/
theorem clampNote_head (q : ℚ) : (clampNote q).data.head? = some 'P' := by
  have h : "Pressure altitude ".data = 'P' :: "ressure altitude ".data := by decide
  simp [clampNote, String.data_append, h]

/-- A clamp note is never the extrapolation note. -/
theorem clampNote_ne_extrapNote (q : ℚ) : clampNote q ≠ extrapNote := by
  intro h
  have h2 := congrArg (fun s => s.data.head?) h
  simp only at h2
  rw [clampNote_head] at h2
  exact absurd h2 (by decide)

/-- When the requested altitude is not below the axis minimum, no clamp
note appears in the notes of a normal return (in-range weight). -/
theorem calcCore_no_clamp_note (xs ys : List ℚ) (ws : List WeightTable)
    (input : CalcInput) (hne : ws ≠ [])
    (hwin : ¬ (input.weightLb < wMinW ws ∨ input.weightLb > wMaxW ws))
    (hpa : ¬ input.pressureAltitudeFt < xs.headD 0) :
    ∀ out, calcCore xs ys ws input = .ok out → ∀ q, clampNote q ∉ out.notes := by
  intro out hout q
  simp only [calcCore, if_neg hne, if_neg hwin, clampNotes, if_neg hpa] at hout
  split at hout
  · split at hout
    · injection hout with h
      subst h
      simp
    · injection hout with h
      subst h
      simp [clampNote_ne_extrapNote q]
    · cases hout
  · cases hout

/-- C4 amended: *for requests with in-range weight*, an altitude below
the table minimum produces exactly the result of the same request at the
minimum altitude plus one extra clamp note (appended after any other
notes), and no clamping — no clamp note at all — happens for altitudes at
or above the minimum, in particular at the high end of the axis. -/
theorem c4_amended_clamp_law (d : DataSchema) (input : CalcInput)
    (hne : weightsSorted d ≠ [])
    (hwin : ¬ (input.weightLb < wMinW (weightsSorted d) ∨
               input.weightLb > wMaxW (weightsSorted d))) :
    (input.pressureAltitudeFt < (xsOf d).headD 0 →
      calculate d input =
        (calculate d { input with pressureAltitudeFt := (xsOf d).headD 0 }).map
          (fun out => { out with
            notes := out.notes ++ [clampNote input.pressureAltitudeFt] })) ∧
    (¬ input.pressureAltitudeFt < (xsOf d).headD 0 →
      ∀ out, calculate d input = .ok out → ∀ q, clampNote q ∉ out.notes) := by
  constructor
  · intro hpa
    exact calcCore_clamp_law (xsOf d) d.grid.temperatures_c (weightsSorted d)
      input hne hwin hpa
  · intro hpa
    exact calcCore_no_clamp_note (xsOf d) d.grid.temperatures_c (weightsSorted d)
      input hne hwin hpa

/-- C4 amended witness: toy table at altitude -500 ft versus 0 ft, and a
high-end request at 5000 ft that gets the extrapolation note but no clamp
note. -/
theorem c4_witness :
    ((-500:ℚ) < (xsOf toyTable).headD 0) ∧
    calculate toyTable
        { pressureAltitudeFt := -500, oatC := 0, weightLb := 950,
          windKtSigned := 0, dryGrass := false } =
      (calculate toyTable
          { pressureAltitudeFt := 0, oatC := 0, weightLb := 950,
            windKtSigned := 0, dryGrass := false }).map
        (fun out => { out with notes := out.notes ++ [clampNote (-500)] }) ∧
    calculate toyTable
        { pressureAltitudeFt := -500, oatC := 0, weightLb := 950,
          windKtSigned := 0, dryGrass := false } =
      .ok { groundRollFt := some 525, toClear50Ft := some 950,
            liftoffKIAS := some 53, at50ftKIAS := some 58,
            notes := [clampNote (-500)] } ∧
    (∀ q, clampNote q ∉ [extrapNote]) ∧
    calculate toyTable
        { pressureAltitudeFt := 5000, oatC := 0, weightLb := 950,
          windKtSigned := 0, dryGrass := false } =
      .ok { groundRollFt := none, toClear50Ft := none,
            liftoffKIAS := some 53, at50ftKIAS := some 58,
            notes := [extrapNote] } := by
  have h1 := (c4_amended_clamp_law toyTable
    { pressureAltitudeFt := -500, oatC := 0, weightLb := 950,
      windKtSigned := 0, dryGrass := false } (by decide) (by decide)).1 (by decide)
  have h2 := (c4_amended_clamp_law toyTable
    { pressureAltitudeFt := 5000, oatC := 0, weightLb := 950,
      windKtSigned := 0, dryGrass := false } (by decide) (by decide)).2 (by decide)
  refine ⟨by decide, h1, by decide, ?_, by decide⟩
  intro q
  exact h2 { groundRollFt := none, toClear50Ft := none,
             liftoffKIAS := some 53, at50ftKIAS := some 58,
             notes := [extrapNote] } (by decide) q

/-- Rounding is monotone. -/
theorem jsRound_mono {a b : ℚ} (h : a ≤ b) : jsRound a ≤ jsRound b :=
  Int.floor_le_floor (by linarith)

/-- C6 amended: with both distances computed and positive, increasing the
headwind (while the factor stays at or above the 0.5 floor) strictly
decreases both distances *before rounding*, and therefore weakly
decreases the returned rounded distances; the headwind factor never drops
below 0.5 for any headwind. -/
theorem c6_amended_wind_monotonicity (d : DataSchema) (input : CalcInput)
    (lower upper : WeightTable) (RG OG : Grid) (roll over50 w1 w2 : ℚ)
    (hne : weightsSorted d ≠ [])
    (hwin : ¬ (input.weightLb < wMinW (weightsSorted d) ∨
               input.weightLb > wMaxW (weightsSorted d)))
    (hsel : selectBracket (weightsSorted d) input.weightLb = (lower, upper))
    (hWI1 : weightInterp input.weightLb lower.weight_lb lower.ground_roll_ft
              upper.weight_lb upper.ground_roll_ft = .ok RG)
    (hWI2 : weightInterp input.weightLb lower.weight_lb lower.to_clear_50ft_ft
              upper.weight_lb upper.to_clear_50ft_ft = .ok OG)
    (hb1 : bilinear (paEff input.pressureAltitudeFt ((xsOf d).headD 0)) input.oatC
              (xsOf d) d.grid.temperatures_c RG = .ok (some roll))
    (hb2 : bilinear (paEff input.pressureAltitudeFt ((xsOf d).headD 0)) input.oatC
              (xsOf d) d.grid.temperatures_c OG = .ok (some over50))
    (hroll : 0 < roll) (hover : 0 < over50)
    (h1 : 0 < w1) (h12 : w1 < w2)
    (hfl : 1/2 ≤ 1 - w2 / 9 * (10/100)) :
    calculate d { input with windKtSigned := w1 } =
      .ok { groundRollFt := some (jsRound (grassAdjust input.dryGrass
              (roll * headwindFactor w1) (over50 * headwindFactor w1)).1),
            toClear50Ft := some (jsRound (grassAdjust input.dryGrass
              (roll * headwindFactor w1) (over50 * headwindFactor w1)).2),
            liftoffKIAS := some (jsRound (lerp lower.speeds_kias.liftoff
              upper.speeds_kias.liftoff (twOf lower upper input.weightLb))),
            at50ftKIAS := some (jsRound (lerp lower.speeds_kias.at_50ft
              upper.speeds_kias.at_50ft (twOf lower upper input.weightLb))),
            notes := clampNotes input.pressureAltitudeFt ((xsOf d).headD 0) } ∧
    calculate d { input with windKtSigned := w2 } =
      .ok { groundRollFt := some (jsRound (grassAdjust input.dryGrass
              (roll * headwindFactor w2) (over50 * headwindFactor w2)).1),
            toClear50Ft := some (jsRound (grassAdjust input.dryGrass
              (roll * headwindFactor w2) (over50 * headwindFactor w2)).2),
            liftoffKIAS := some (jsRound (lerp lower.speeds_kias.liftoff
              upper.speeds_kias.liftoff (twOf lower upper input.weightLb))),
            at50ftKIAS := some (jsRound (lerp lower.speeds_kias.at_50ft
              upper.speeds_kias.at_50ft (twOf lower upper input.weightLb))),
            notes := clampNotes input.pressureAltitudeFt ((xsOf d).headD 0) } ∧
    (grassAdjust input.dryGrass (roll * headwindFactor w2)
        (over50 * headwindFactor w2)).1 <
      (grassAdjust input.dryGrass (roll * headwindFactor w1)
        (over50 * headwindFactor w1)).1 ∧
    (grassAdjust input.dryGrass (roll * headwindFactor w2)
        (over50 * headwindFactor w2)).2 <
      (grassAdjust input.dryGrass (roll * headwindFactor w1)
        (over50 * headwindFactor w1)).2 ∧
    jsRound (grassAdjust input.dryGrass (roll * headwindFactor w2)
        (over50 * headwindFactor w2)).1 ≤
      jsRound (grassAdjust input.dryGrass (roll * headwindFactor w1)
        (over50 * headwindFactor w1)).1 ∧
    jsRound (grassAdjust input.dryGrass (roll * headwindFactor w2)
        (over50 * headwindFactor w2)).2 ≤
      jsRound (grassAdjust input.dryGrass (roll * headwindFactor w1)
        (over50 * headwindFactor w1)).2 ∧
    (∀ wind : ℚ, 1/2 ≤ headwindFactor wind) := by
  have h2 : 0 < w2 := h1.trans h12
  have hf2 : headwindFactor w2 = 1 - w2 / 9 * (10/100) := max_eq_left hfl
  have hfl1 : 1/2 ≤ 1 - w1 / 9 * (10/100) := by
    have : w1 / 9 * (10/100) ≤ w2 / 9 * (10/100) := by linarith
    linarith
  have hf1 : headwindFactor w1 = 1 - w1 / 9 * (10/100) := max_eq_left hfl1
  have hflt : headwindFactor w2 < headwindFactor w1 := by
    rw [hf1, hf2]; linarith
  have hrs : roll * headwindFactor w2 < roll * headwindFactor w1 :=
    mul_lt_mul_of_pos_left hflt hroll
  have hos : over50 * headwindFactor w2 < over50 * headwindFactor w1 :=
    mul_lt_mul_of_pos_left hflt hover
  have hg1 : (grassAdjust input.dryGrass (roll * headwindFactor w2)
        (over50 * headwindFactor w2)).1 <
      (grassAdjust input.dryGrass (roll * headwindFactor w1)
        (over50 * headwindFactor w1)).1 := by
    cases input.dryGrass <;> simp [grassAdjust] <;> nlinarith
  have hg2 : (grassAdjust input.dryGrass (roll * headwindFactor w2)
        (over50 * headwindFactor w2)).2 <
      (grassAdjust input.dryGrass (roll * headwindFactor w1)
        (over50 * headwindFactor w1)).2 := by
    cases input.dryGrass <;> simp [grassAdjust] <;> nlinarith
  refine ⟨?_, ?_, hg1, hg2, jsRound_mono hg1.le, jsRound_mono hg2.le,
    fun wind => le_max_right _ _⟩
  · have h := calcCore_success (xsOf d) d.grid.temperatures_c (weightsSorted d)
      { input with windKtSigned := w1 } lower upper RG OG roll over50
      hne hwin hsel hWI1 hWI2 hb1 hb2
    simpa only [calculate, windAdjust, if_pos h1] using h
  · have h := calcCore_success (xsOf d) d.grid.temperatures_c (weightsSorted d)
      { input with windKtSigned := w2 } lower upper RG OG roll over50
      hne hwin hsel hWI1 hWI2 hb1 hb2
    simpa only [calculate, windAdjust, if_pos h2] using h

/-- C6 amended witness: toy table, headwinds 1 kt and 2 kt — rounded
distances drop from (519, 939) to (513, 929), and the factor at a
1000 kt headwind is still 0.5. -/
theorem c6_witness :
    ((0:ℚ) < 1) ∧ ((1:ℚ) < 2) ∧ ((1:ℚ)/2 ≤ 1 - 2 / 9 * (10/100)) ∧
    calculate toyTable
        { pressureAltitudeFt := 0, oatC := 0, weightLb := 950,
          windKtSigned := 1, dryGrass := false } =
      .ok { groundRollFt := some 519, toClear50Ft := some 939,
            liftoffKIAS := some 53, at50ftKIAS := some 58, notes := [] } ∧
    calculate toyTable
        { pressureAltitudeFt := 0, oatC := 0, weightLb := 950,
          windKtSigned := 2, dryGrass := false } =
      .ok { groundRollFt := some 513, toClear50Ft := some 929,
            liftoffKIAS := some 53, at50ftKIAS := some 58, notes := [] } ∧
    (525:ℚ) * headwindFactor 2 < 525 * headwindFactor 1 ∧
    (1:ℚ)/2 ≤ headwindFactor 1000 := by
  have h := c6_amended_wind_monotonicity toyTable
    { pressureAltitudeFt := 0, oatC := 0, weightLb := 950,
      windKtSigned := 0, dryGrass := false }
    toyRow900 toyRow1000
    [[some 525, some 525], [some 630, some 630]]
    [[some 950, some 950], [some 1125, some 1125]]
    525 950 1 2
    (by decide) (by decide) (by decide) (by decide) (by decide)
    (by decide) (by decide) (by decide) (by decide) (by decide)
    (by decide) (by decide)
  exact ⟨by decide, by decide, by decide, h.1.trans (by decide),
    h.2.1.trans (by decide), h.2.2.1, h.2.2.2.2.2.2 1000⟩

/-- A pair found by the bracketing scan encloses the requested weight. -/
theorem findPair_some_bounds {w : ℚ} :
    ∀ {l : List WeightTable} {a b : WeightTable},
      findPair w l = some (a, b) → a.weight_lb ≤ w ∧ w ≤ b.weight_lb := by
  intro l
  induction l with
  | nil => intro a b h; cases h
  | cons x t ih =>
    intro a b h
    cases t with
    | nil => cases h
    | cons y t2 =>
      rw [findPair] at h
      split at h
      · rename_i hcond
        injection h with h2
        injection h2 with hxa hyb
        subst hxa; subst hyb
        exact ⟨hcond.1, hcond.2⟩
      · exact ih h

/-- C9: for an in-range request whose bracketing pair has equal weights,
the `|| 1` guard turns the denominator into 1 (no division-by-zero
fault), the blend fraction is 0, and blending any two values with this
fraction returns the lower row's value exactly (also after rounding). -/
theorem c9_degenerate_bracket (d : DataSchema) (input : CalcInput)
    (hin : ¬ (input.weightLb < wMinW (weightsSorted d) ∨
              input.weightLb > wMaxW (weightsSorted d)))
    (heq : (selectBracket (weightsSorted d) input.weightLb).1.weight_lb =
           (selectBracket (weightsSorted d) input.weightLb).2.weight_lb) :
    jsOr ((selectBracket (weightsSorted d) input.weightLb).2.weight_lb -
          (selectBracket (weightsSorted d) input.weightLb).1.weight_lb) 1 = 1 ∧
    twOf (selectBracket (weightsSorted d) input.weightLb).1
      (selectBracket (weightsSorted d) input.weightLb).2 input.weightLb = 0 ∧
    (∀ a b : ℚ,
      lerp a b (twOf (selectBracket (weightsSorted d) input.weightLb).1
        (selectBracket (weightsSorted d) input.weightLb).2 input.weightLb) = a) ∧
    (∀ a b : ℚ,
      jsRound (lerp a b (twOf (selectBracket (weightsSorted d) input.weightLb).1
        (selectBracket (weightsSorted d) input.weightLb).2 input.weightLb)) =
        jsRound a) := by
  push_neg at hin
  have hw : input.weightLb =
      (selectBracket (weightsSorted d) input.weightLb).1.weight_lb := by
    rcases hfp : findPair input.weightLb (weightsSorted d) with _ | p
    · have hsel : selectBracket (weightsSorted d) input.weightLb =
          ((weightsSorted d).headD default, (weightsSorted d).getLastD default) := by
        simp [selectBracket, hfp]
      rw [hsel]
      rw [hsel] at heq
      exact le_antisymm (heq ▸ hin.2) hin.1
    · have hsel : selectBracket (weightsSorted d) input.weightLb = p := by
        simp [selectBracket, hfp]
      rcases p with ⟨a, b⟩
      have hb := findPair_some_bounds hfp
      rw [hsel]
      rw [hsel] at heq
      exact le_antisymm (heq ▸ hb.2) hb.1
  have hzero : (selectBracket (weightsSorted d) input.weightLb).2.weight_lb -
      (selectBracket (weightsSorted d) input.weightLb).1.weight_lb = 0 := by
    rw [← heq]; ring
  have hjs : jsOr ((selectBracket (weightsSorted d) input.weightLb).2.weight_lb -
      (selectBracket (weightsSorted d) input.weightLb).1.weight_lb) 1 = 1 := by
    rw [hzero]; simp [jsOr]
  have htw : twOf (selectBracket (weightsSorted d) input.weightLb).1
      (selectBracket (weightsSorted d) input.weightLb).2 input.weightLb = 0 := by
    rw [twOf, hjs, ← hw]
    simp
  refine ⟨hjs, htw, fun a b => ?_, fun a b => ?_⟩
  · rw [htw, lerp]; ring
  · rw [htw, lerp]; ring_nf

/-- C9 witness: a table with two rows both of weight 900 lb — the bracket
is degenerate, the fraction is 0, and blending the speeds 50 and 55
returns 50. -/
theorem c9_witness :
    ((selectBracket (weightsSorted dupTable) 900).1.weight_lb =
      (selectBracket (weightsSorted dupTable) 900).2.weight_lb) ∧
    jsOr ((selectBracket (weightsSorted dupTable) 900).2.weight_lb -
          (selectBracket (weightsSorted dupTable) 900).1.weight_lb) 1 = 1 ∧
    twOf (selectBracket (weightsSorted dupTable) 900).1
      (selectBracket (weightsSorted dupTable) 900).2 900 = 0 ∧
    lerp 50 55 (twOf (selectBracket (weightsSorted dupTable) 900).1
      (selectBracket (weightsSorted dupTable) 900).2 900) = 50 := by
  have h := c9_degenerate_bracket dupTable
    { pressureAltitudeFt := 0, oatC := 0, weightLb := 900,
      windKtSigned := 0, dryGrass := false } (by decide) (by decide)
  exact ⟨by decide, h.1, h.2.1, h.2.2.1 50 55⟩

/-- Two sorted row lists that are permutations of one another and have
pairwise distinct weights are equal. -/
theorem eq_of_sorted_of_perm_of_nodup_weights :
    ∀ {l1 l2 : List WeightTable}, l1.Sorted weightLE → l2.Sorted weightLE →
      l1.Perm l2 → (l1.map (fun r => r.weight_lb)).Nodup → l1 = l2 := by
  intro l1
  induction l1 with
  | nil => intro l2 _ _ hp _; exact (hp.nil_eq).symm ▸ rfl
  | cons a t1 ih =>
    intro l2 hs1 hs2 hp hnd
    rw [List.map_cons, List.nodup_cons] at hnd
    cases l2 with
    | nil => exact absurd hp.symm.nil_eq (by simp)
    | cons b t2 =>
      rcases List.sorted_cons.mp hs1 with ⟨ha, hs1t⟩
      rcases List.sorted_cons.mp hs2 with ⟨hb, hs2t⟩
      by_cases hab : a = b
      · subst hab
        have ht : t1.Perm t2 := hp.cons_inv
        rw [ih hs1t hs2t ht hnd.2]
      · exfalso
        have hbmem : b ∈ t1 := by
          have h0 : b ∈ a :: t1 := hp.symm.subset (List.mem_cons_self b t2)
          rcases List.mem_cons.mp h0 with h | h
          · exact absurd h.symm hab
          · exact h
        have hamem : a ∈ t2 := by
          have h0 : a ∈ b :: t2 := hp.subset (List.mem_cons_self a t1)
          rcases List.mem_cons.mp h0 with h | h
          · exact absurd h hab
          · exact h
        have heqw : a.weight_lb = b.weight_lb :=
          le_antisymm (ha b hbmem) (hb a hamem)
        exact hnd.1 (heqw ▸ List.mem_map_of_mem (fun r => r.weight_lb) hbmem)

/-- C10: two tables identical except for the stored order of their weight
rows (with the data model's distinct-weights invariant) produce identical
results for every request: the engine sorts the rows internally. -/
theorem c10_row_order_irrelevant (t1 t2 : DataSchema) (input : CalcInput)
    (hperm : t1.grid.weights.Perm t2.grid.weights)
    (hpa : t1.grid.pressure_altitudes_ft = t2.grid.pressure_altitudes_ft)
    (hts : t1.grid.temperatures_c = t2.grid.temperatures_c)
    (hnd : (t1.grid.weights.map (fun r => r.weight_lb)).Nodup) :
    calculate t1 input = calculate t2 input := by
  have hsorteq : weightsSorted t1 = weightsSorted t2 := by
    apply eq_of_sorted_of_perm_of_nodup_weights
      (List.sorted_insertionSort weightLE t1.grid.weights)
      (List.sorted_insertionSort weightLE t2.grid.weights)
    · exact ((List.perm_insertionSort weightLE t1.grid.weights).trans hperm).trans
        (List.perm_insertionSort weightLE t2.grid.weights).symm
    · exact ((List.perm_insertionSort weightLE t1.grid.weights).map
        (fun r => r.weight_lb)).nodup_iff.mpr hnd
  rw [calculate, calculate, hsorteq, hts, show xsOf t1 = xsOf t2 from by rw [xsOf, xsOf, hpa]]

/-- C10 witness: the toy table and its row-reversed copy agree on a
concrete request. -/
theorem c10_witness :
    toyTable.grid.weights.Perm toyTablePermuted.grid.weights ∧
    (toyTable.grid.weights.map (fun r => r.weight_lb)).Nodup ∧
    calculate toyTable
        { pressureAltitudeFt := 0, oatC := 0, weightLb := 950,
          windKtSigned := 0, dryGrass := false } =
      calculate toyTablePermuted
        { pressureAltitudeFt := 0, oatC := 0, weightLb := 950,
          windKtSigned := 0, dryGrass := false } :=
  ⟨by decide, by decide,
    c10_row_order_irrelevant toyTable toyTablePermuted
      { pressureAltitudeFt := 0, oatC := 0, weightLb := 950,
        windKtSigned := 0, dryGrass := false }
      (by decide) (by decide) (by decide) (by decide)⟩

/-- The scanning loop never runs past the second-to-last axis index when
the target does not exceed the last axis entry. -/
theorem clampLoop_bound (x : ℚ) (axis : List ℚ)
    (hlast : ¬ x > axis.getD (axis.length - 1) 0) :
    ∀ fuel i, i + 1 < axis.length → clampLoop x axis i fuel + 1 < axis.length := by
  intro fuel
  induction fuel with
  | zero => intro i hi; simpa [clampLoop] using hi
  | succ n ih =>
    intro i hi
    rw [clampLoop]
    split
    · rename_i hcond
      apply ih
      by_contra hge
      push_neg at hge
      have hieq : i + 1 = axis.length - 1 := by omega
      exact hlast (hieq ▸ hcond.2)
    · exact hi

/-- On an axis with at least two entries, a successful lookup returns an
index whose successor is still a valid index. -/
theorem clampIndex_bound {x : ℚ} {axis : List ℚ} {i : Nat}
    (hlen : 2 ≤ axis.length) (h : clampIndex x axis = some i) :
    i + 1 < axis.length := by
  rw [clampIndex] at h
  split at h
  · cases h
  · rename_i hcond
    injection h with h2
    subst h2
    push_neg at hcond
    exact clampLoop_bound x axis (not_lt.mpr hcond.2) axis.length 0 (by omega)

/-- Reading any column of an existing grid row does not fault. -/
theorem cellRead_ok {g : Grid} {r : Nat} (h : r < g.length) (c : Nat) :
    ∃ v, cellRead g r c = .ok v := by
  obtain ⟨row, hrow⟩ : ∃ row, g[r]? = some row := ⟨_, List.getElem?_eq_getElem h⟩
  refine ⟨(row.get? c).getD none, ?_⟩
  simp [cellRead, hrow]

/-- A traversal whose steps all return normally returns normally, with
one output per input. -/
theorem traverseE_ok {α β : Type} (f : α → Except Unit β) :
    ∀ l : List α, (∀ a ∈ l, ∃ b, f a = .ok b) →
      ∃ bs, traverseE f l = .ok bs ∧ bs.length = l.length := by
  intro l
  induction l with
  | nil => intro _; exact ⟨[], rfl, rfl⟩
  | cons a t ih =>
    intro h
    obtain ⟨b, hb⟩ := h a (List.mem_cons_self a t)
    obtain ⟨bs, hbs, hlen⟩ := ih (fun x hx => h x (List.mem_cons_of_mem a hx))
    exact ⟨b :: bs, by simp [traverseE, hb, hbs], by simp [hlen]⟩

/-- The weight blend does not fault when the lower grid is non-empty and
the upper grid has at least as many rows. -/
theorem weightInterp_ok (w lw uw : ℚ) (lg ug : Grid)
    (hne : lg ≠ []) (hlen : lg.length ≤ ug.length) :
    ∃ G, weightInterp w lw lg uw ug = .ok G ∧ G.length = lg.length := by
  obtain ⟨row0, hrow0⟩ : ∃ row0, lg.head? = some row0 := by
    cases lg with
    | nil => exact absurd rfl hne
    | cons r t => exact ⟨r, rfl⟩
  have hall : ∀ i ∈ List.range lg.length,
      ∃ b, (fun i => match lg.get? i, ug.get? i with
        | some lr, some ur =>
          Except.ok (blendRow ((w - lw) / jsOr (uw - lw) 1) row0.length lr ur)
        | _, _ => Except.error ()) i = .ok b := by
    intro i hi
    have hilt : i < lg.length := List.mem_range.mp hi
    obtain ⟨lr, hlr⟩ : ∃ lr, lg.get? i = some lr := ⟨_, List.get?_eq_get hilt⟩
    obtain ⟨ur, hur⟩ : ∃ ur, ug.get? i = some ur :=
      ⟨_, List.get?_eq_get (lt_of_lt_of_le hilt hlen)⟩
    exact ⟨blendRow ((w - lw) / jsOr (uw - lw) 1) row0.length lr ur,
      by simp only [hlr, hur]⟩
  obtain ⟨G, hG, hGlen⟩ := traverseE_ok _ (List.range lg.length) hall
  refine ⟨G, ?_, by simpa using hGlen⟩
  simp only [weightInterp, hrow0]
  exact hG

/-- No fault in `bilinear` on a grid with as many rows as an altitude
axis of length at least two. -/
theorem bilinear_ok (x y : ℚ) (xs ys : List ℚ) (g : Grid)
    (hxs : 2 ≤ xs.length) (hg : g.length = xs.length) :
    ∃ v, bilinear x y xs ys g = .ok v := by
  rcases hi : clampIndex x xs with _ | i
  · exact ⟨none, by simp [bilinear, hi]⟩
  · rcases hj : clampIndex y ys with _ | j
    · exact ⟨none, by simp [bilinear, hi, hj]⟩
    · have hib := clampIndex_bound hxs hi
      have hi1 : i < g.length := by omega
      have hi2 : i + 1 < g.length := by omega
      obtain ⟨q11, h11⟩ := cellRead_ok hi1 j
      obtain ⟨q12, h12⟩ := cellRead_ok hi1 (j + 1)
      obtain ⟨q21, h21⟩ := cellRead_ok hi2 j
      obtain ⟨q22, h22⟩ := cellRead_ok hi2 (j + 1)
      rcases q11 with _ | a <;> rcases q12 with _ | b <;>
        rcases q21 with _ | c <;> rcases q22 with _ | e
      all_goals (simp only [bilinear, hi, hj, h11, h12, h21, h22]; exact ⟨_, rfl⟩)

/-- A pair found by the bracketing scan consists of list members. -/
theorem findPair_mem {w : ℚ} :
    ∀ {l : List WeightTable} {a b : WeightTable},
      findPair w l = some (a, b) → a ∈ l ∧ b ∈ l := by
  intro l
  induction l with
  | nil => intro a b h; cases h
  | cons x t ih =>
    intro a b h
    cases t with
    | nil => cases h
    | cons y t2 =>
      rw [findPair] at h
      split at h
      · injection h with h2
        injection h2 with hxa hyb
        subst hxa; subst hyb
        exact ⟨List.mem_cons_self _ _,
          List.mem_cons_of_mem _ (List.mem_cons_self _ _)⟩
      · have hm := ih h
        exact ⟨List.mem_cons_of_mem _ hm.1, List.mem_cons_of_mem _ hm.2⟩

/-- The `headD` of a non-empty list is a member. -/
theorem headD_mem {l : List WeightTable} (h : l ≠ []) (d : WeightTable) :
    l.headD d ∈ l := by
  cases l with
  | nil => exact absurd rfl h
  | cons a t => exact List.mem_cons_self _ _

/-- The `getLastD` of a non-empty list is a member. -/
theorem getLastD_mem : ∀ (l : List WeightTable), l ≠ [] →
    ∀ d : WeightTable, l.getLastD d ∈ l := by
  intro l
  induction l with
  | nil => intro h; exact absurd rfl h
  | cons a t ih =>
    intro _ d
    cases t with
    | nil => simp [List.getLastD]
    | cons b t2 =>
      have hm := ih (by simp) d
      rw [List.getLastD_cons]
      exact List.mem_cons_of_mem _ (by simpa [List.getLastD_cons] using hm)

/-- Both selected bracketing rows are rows of the table. -/
theorem selectBracket_mem {ws : List WeightTable} (h : ws ≠ []) (w : ℚ) :
    (selectBracket ws w).1 ∈ ws ∧ (selectBracket ws w).2 ∈ ws := by
  rcases hfp : findPair w ws with _ | p
  · have hsel : selectBracket ws w = (ws.headD default, ws.getLastD default) := by
      simp [selectBracket, hfp]
    rw [hsel]
    exact ⟨headD_mem h _, getLastD_mem ws h _⟩
  · rcases p with ⟨a, b⟩
    have hsel : selectBracket ws w = (a, b) := by simp [selectBracket, hfp]
    rw [hsel]
    exact findPair_mem hfp

/-- C7 amended: on every table whose weight-row list is non-empty, whose
altitude axis has *at least two* entries, and whose grids have one row per
altitude entry, `calculate` returns normally for every request — all
out-of-range and null-cell conditions surface as absent fields and notes.
(The claim's original invariant admits a one-entry altitude axis, on
which the engine faults; see the counterexample.) -/
theorem c7_amended_no_fault (d : DataSchema) (input : CalcInput)
    (hws : d.grid.weights ≠ [])
    (hxs : 2 ≤ (xsOf d).length)
    (hdims : ∀ r ∈ d.grid.weights,
      r.ground_roll_ft.length = (xsOf d).length ∧
      r.to_clear_50ft_ft.length = (xsOf d).length) :
    ∃ out, calculate d input = .ok out := by
  have hperm := List.perm_insertionSort weightLE d.grid.weights
  have hsne : weightsSorted d ≠ [] := by
    intro h
    rw [weightsSorted] at h
    rw [h] at hperm
    exact hws hperm.nil_eq.symm
  by_cases hw : input.weightLb < wMinW (weightsSorted d) ∨
      input.weightLb > wMaxW (weightsSorted d)
  · have hcalc : calculate d input =
        .ok { groundRollFt := none, toClear50Ft := none, liftoffKIAS := none,
              at50ftKIAS := none,
              notes := [weightNote input.weightLb (wMinW (weightsSorted d))
                (wMaxW (weightsSorted d))] } := by
      simp only [calculate, calcCore, if_neg hsne, if_pos hw]
    exact ⟨_, hcalc⟩
  · obtain ⟨hmem1, hmem2⟩ := selectBracket_mem hsne input.weightLb
    have hmem1d : (selectBracket (weightsSorted d) input.weightLb).1 ∈ d.grid.weights :=
      hperm.mem_iff.mp hmem1
    have hmem2d : (selectBracket (weightsSorted d) input.weightLb).2 ∈ d.grid.weights :=
      hperm.mem_iff.mp hmem2
    obtain ⟨hd1g, hd1c⟩ := hdims _ hmem1d
    obtain ⟨hd2g, hd2c⟩ := hdims _ hmem2d
    have hlgne : (selectBracket (weightsSorted d) input.weightLb).1.ground_roll_ft ≠ [] := by
      intro h
      rw [h] at hd1g
      simp at hd1g
      omega
    have hlcne : (selectBracket (weightsSorted d) input.weightLb).1.to_clear_50ft_ft ≠ [] := by
      intro h
      rw [h] at hd1c
      simp at hd1c
      omega
    obtain ⟨RG, hRG, hRGlen⟩ := weightInterp_ok input.weightLb
      (selectBracket (weightsSorted d) input.weightLb).1.weight_lb
      (selectBracket (weightsSorted d) input.weightLb).2.weight_lb
      (selectBracket (weightsSorted d) input.weightLb).1.ground_roll_ft
      (selectBracket (weightsSorted d) input.weightLb).2.ground_roll_ft
      hlgne (by rw [hd1g, hd2g])
    obtain ⟨OG, hOG, hOGlen⟩ := weightInterp_ok input.weightLb
      (selectBracket (weightsSorted d) input.weightLb).1.weight_lb
      (selectBracket (weightsSorted d) input.weightLb).2.weight_lb
      (selectBracket (weightsSorted d) input.weightLb).1.to_clear_50ft_ft
      (selectBracket (weightsSorted d) input.weightLb).2.to_clear_50ft_ft
      hlcne (by rw [hd1c, hd2c])
    obtain ⟨rv, hrv⟩ := bilinear_ok
      (paEff input.pressureAltitudeFt ((xsOf d).headD 0)) input.oatC
      (xsOf d) d.grid.temperatures_c RG hxs (by rw [hRGlen, hd1g])
    obtain ⟨ov, hov⟩ := bilinear_ok
      (paEff input.pressureAltitudeFt ((xsOf d).headD 0)) input.oatC
      (xsOf d) d.grid.temperatures_c OG hxs (by rw [hOGlen, hd1c])
    have hsel : selectBracket (weightsSorted d) input.weightLb =
        ((selectBracket (weightsSorted d) input.weightLb).1,
         (selectBracket (weightsSorted d) input.weightLb).2) := rfl
    rcases rv with _ | rq
    · exact ⟨_, calcCore_extrap (xsOf d) d.grid.temperatures_c (weightsSorted d)
        input _ _ RG OG none ov hsne hw hsel hRG hOG hrv hov (Or.inl rfl)⟩
    · rcases ov with _ | oq
      · exact ⟨_, calcCore_extrap (xsOf d) d.grid.temperatures_c (weightsSorted d)
          input _ _ RG OG (some rq) none hsne hw hsel hRG hOG hrv hov (Or.inr rfl)⟩
      · exact ⟨_, calcCore_success (xsOf d) d.grid.temperatures_c (weightsSorted d)
          input _ _ RG OG rq oq hsne hw hsel hRG hOG hrv hov⟩

/-- C7 amended witness: the toy table satisfies the amended invariants and
a concrete request returns normally. -/
theorem c7_witness :
    toyTable.grid.weights ≠ [] ∧ 2 ≤ (xsOf toyTable).length ∧
    (∀ r ∈ toyTable.grid.weights,
      r.ground_roll_ft.length = (xsOf toyTable).length ∧
      r.to_clear_50ft_ft.length = (xsOf toyTable).length) ∧
    (∃ out, calculate toyTable
      { pressureAltitudeFt := 5, oatC := 5, weightLb := 950,
        windKtSigned := 3, dryGrass := true } = .ok out) :=
  ⟨by decide, by decide, by decide,
    c7_amended_no_fault toyTable
      { pressureAltitudeFt := 5, oatC := 5, weightLb := 950,
        windKtSigned := 3, dryGrass := true }
      (by decide) (by decide) (by decide)⟩
